import Mathlib

/-!
Shallow embedding of the SpendingAnalyzer pipeline of Prototype.py.

Amounts are modelled as exact rationals, dates as integer day indices
(an Option Int, none for an unparseable date), categories and
descriptions as Lean strings.  The Python round(x, 2) is modelled as
rounding to a whole number of cents on the rationals.  The pandas frame
is modelled as a list of rows; the analyzer state carries the frame, the
ordered warning list and the cached ratings list.
-/

namespace Spending

/-- Python round(x, 2), modelled on rationals: round to a whole number of
cents.  Mathlib round is round half up; the development only uses that
the result is within half a cent of the argument. -/
def round2 (q : ℚ) : ℚ := (round (q * 100) : ℤ) / 100

/-- startsWithL sub l holds when sub begins l (on character lists). -/
def startsWithL : List Char → List Char → Bool
  | [], _ => true
  | _ :: _, [] => false
  | a :: as, b :: bs => a == b && startsWithL as bs

/-- hasSubL sub l: sub occurs contiguously somewhere inside l. -/
def hasSubL (sub : List Char) : List Char → Bool
  | [] => sub.isEmpty
  | c :: rest => startsWithL sub (c :: rest) || hasSubL sub rest

/-- The Python substring test sub in s. -/
def strContains (s sub : String) : Bool := hasSubL sub.toList s.toList

/-- Python str.lower(), character by character (the categories and
descriptions of this program are ASCII). -/
def strLower (s : String) : String := String.mk (s.data.map Char.toLower)

/-- A whitespace character in the sense of Python str.strip(). -/
def isSpaceChar (c : Char) : Bool :=
  c == ' ' || c == '\t' || c == '\n' || c == '\r' ||
    c == Char.ofNat 11 || c == Char.ofNat 12

/-- Python str.strip(): drop whitespace from both ends. -/
def strTrim (s : String) : String :=
  String.mk (((s.data.dropWhile isSpaceChar).reverse.dropWhile isSpaceChar).reverse)

/-- One row of the normalized transaction table (after type coercion:
Date parsed or null, Amount numeric, Category and Description text). -/
structure Txn where
  date : Option Int
  amount : ℚ
  category : String
  description : String
deriving DecidableEq

instance : Inhabited Txn := ⟨⟨none, 0, "Other", "Unknown"⟩⟩

/-- The income keyword list of _clean_and_validate_data. -/
def income_keywords : List String := ["salary", "income", "bonus", "refund", "deposit"]

/-- IsIncome: the lowercased category contains some income keyword
(the regex salary|income|bonus|refund|deposit applied to the lowercased
category). -/
def isIncome (t : Txn) : Bool :=
  income_keywords.any (fun k => strContains (strLower t.category) k)

/-- The static necessity table built in the analyzer constructor. -/
def necessity_scores : List (String × ℚ) :=
  [("groceries", 0.95), ("food", 0.95), ("rent", 0.95), ("utilities", 0.95),
   ("housing", 0.95), ("healthcare", 0.90), ("transport", 0.85),
   ("transportation", 0.85), ("insurance", 0.85), ("education", 0.80),
   ("childcare", 0.85), ("phone", 0.70), ("internet", 0.75), ("income", 1.0),
   ("salary", 1.0), ("gym", 0.40), ("entertainment", 0.30), ("dining", 0.35),
   ("eating out", 0.35), ("hobbies", 0.25), ("subscriptions", 0.20),
   ("shopping", 0.15), ("other", 0.50)]

/-- get_necessity_score: case-insensitive lookup, absent keys give 0.50. -/
def get_necessity_score (category : String) : ℚ :=
  (necessity_scores.lookup (strLower category)).getD 0.50

/-- One entry of transactions_with_ratings, as built by
rate_transaction_worth. -/
structure Rating where
  date : Option Int
  description : String
  amount : ℚ
  necessity : ℚ
  worth_it_rating : ℚ
  waste_potential : ℚ
  assessment : String
deriving DecidableEq

/-- Analyzer state: the frame, the warning list, the cached ratings. -/
structure AState where
  df : List Txn
  warnings : List String
  transactions_with_ratings : List Rating
deriving DecidableEq

/-- The fresh state the constructor builds before validation runs. -/
def initState (df : List Txn) : AState :=
  { df := df, warnings := [], transactions_with_ratings := [] }

/-- A transaction is future-dated when its parsed date is strictly after
today; a null date never compares greater (pandas NaT comparisons are
false). -/
def isFuture (today : Int) (t : Txn) : Bool :=
  match t.date with
  | some d => decide (today < d)
  | none => false

/-- The number of future-dated rows (the sum of the future mask). -/
def futureCount (today : Int) (df : List Txn) : ℕ :=
  (df.filter (isFuture today)).length

/-- Step 1 of _clean_and_validate_data: drop future-dated rows and, when
at least one was dropped, record the count as a warning. -/
def futureFilterStep (today : Int) (s : AState) : AState :=
  { s with
    df := s.df.filter (fun t => ! isFuture today t),
    warnings :=
      if 0 < futureCount today s.df then
        s.warnings ++ ["⚠️  Removed " ++ toString (futureCount today s.df) ++
          " future-dated transactions"]
      else s.warnings }

/-- The per-row sign correction of _clean_and_validate_data: a negative
income amount becomes its absolute value; a positive non-income amount
whose description does not contain refund becomes minus its absolute
value. -/
def signFixOne (t : Txn) : Txn :=
  if isIncome t = true ∧ t.amount < 0 then { t with amount := |t.amount| }
  else if isIncome t = false ∧ 0 < t.amount ∧
      strContains (strLower t.description) "refund" = false then
    { t with amount := - |t.amount| }
  else t

/-- Step 3 of _clean_and_validate_data: apply the sign correction row by
row, logging each income-sign correction (expense corrections are
silent). -/
def signFixStep (s : AState) : AState :=
  let warns := s.warnings ++
    ((s.df.enum.filter (fun p => isIncome p.2 && decide (p.2.amount < 0))).map
      (fun p => "ℹ️  Corrected income sign at row " ++ toString p.1))
  { s with df := s.df.map signFixOne, warnings := warns }

/-- The pandas Series.quantile with linear interpolation, on rationals:
sort ascending, position q*(n-1), interpolate between the neighbouring
order statistics. -/
def quantileQ (l : List ℚ) (q : ℚ) : ℚ :=
  let s := List.insertionSort (· ≤ ·) l
  match s with
  | [] => 0
  | _ :: _ =>
    let pos : ℚ := q * ((s.length : ℚ) - 1)
    let lo : ℕ := pos.floor.toNat
    let frac : ℚ := pos - (lo : ℚ)
    let a := s.getD lo 0
    let b := s.getD (lo + 1) a
    a + frac * (b - a)

/-- The expense rows (amount strictly negative). -/
def expenseRows (df : List Txn) : List Txn :=
  df.filter (fun t => decide (t.amount < 0))

/-- The IQR lower bound of step 4: q1 - 1.5 * (q3 - q1) over the expense
amounts. -/
def outlierLowerBound (df : List Txn) : ℚ :=
  quantileQ ((expenseRows df).map Txn.amount) (1/4) -
    3/2 * (quantileQ ((expenseRows df).map Txn.amount) (3/4) -
      quantileQ ((expenseRows df).map Txn.amount) (1/4))

/-- The expense rows strictly below the IQR lower bound. -/
def extremeOutliers (df : List Txn) : List Txn :=
  (expenseRows df).filter (fun t => decide (t.amount < outlierLowerBound df))

/-- Step 4 of _clean_and_validate_data: IQR outlier flagging over the
expense rows; computed only with at least 4 expense rows; warning only,
the frame is untouched. -/
def outlierStep (s : AState) : AState :=
  if 4 ≤ (expenseRows s.df).length then
    if 0 < (extremeOutliers s.df).length then
      { s with warnings := s.warnings ++
          ["⚠️  Found " ++ toString (extremeOutliers s.df).length ++
            " extreme expense outliers"] }
    else s
  else s

/-- The duplicated subset key of step 5: the (Date, Description, Amount)
triple. -/
def dupKey (t : Txn) : Option Int × String × ℚ := (t.date, t.description, t.amount)

/-- The number of rows flagged by duplicated with keep false: rows whose
(Date, Description, Amount) triple occurs at least twice. -/
def dupCount (df : List Txn) : ℕ :=
  (df.filter (fun t =>
    decide (2 ≤ (df.filter (fun u => decide (dupKey u = dupKey t))).length))).length

/-- Step 5 of _clean_and_validate_data: warn when any duplicates were
flagged; the frame is untouched. -/
def dupStep (s : AState) : AState :=
  if 0 < dupCount s.df then
    { s with warnings := s.warnings ++
        ["⚠️  Found " ++ toString (dupCount s.df) ++ " potential duplicate transactions"] }
  else s

/-- _clean_and_validate_data: the validation pipeline in source order.
The amount/category/description normalization between the date filter and
the sign correction is the identity on this already-typed row model. -/
def clean_and_validate_data (today : Int) (s : AState) : AState :=
  dupStep (outlierStep (signFixStep (futureFilterStep today s)))

/-- The rating row rate_transaction_worth builds for one transaction. -/
def rateOne (t : Txn) : Rating :=
  let amount := t.amount
  let necessity := get_necessity_score t.category
  let worth_it_rating := |amount| * necessity
  let waste_potential := |amount| * (1 - necessity)
  let assessment : String :=
    if 0.9 ≤ necessity then "✓"
    else if 0.7 ≤ necessity then "→"
    else if 0.4 ≤ necessity then "?"
    else "✗"
  { date := t.date, description := t.description, amount := amount,
    necessity := round2 necessity,
    worth_it_rating := round2 worth_it_rating,
    waste_potential := round2 waste_potential,
    assessment := assessment }

/-- rate_transaction_worth as a function of the frame: one rating per
row, in row order. -/
def rate_transaction_worth (df : List Txn) : List Rating := df.map rateOne

/-- rate_transaction_worth as the stateful method: it rebuilds
transactions_with_ratings from the frame and returns the new list. -/
def rate_transaction_worth_st (s : AState) : AState × List Rating :=
  let r := rate_transaction_worth s.df
  ({ s with transactions_with_ratings := r }, r)

/-- The grouping key of identify_recurring_payments: the stripped,
lowercased description. -/
def rKey (t : Txn) : String := strLower (strTrim t.description)

/-- First occurrences of each key, in encounter order (the iteration
order of the Python dict of groups). -/
def firstKeys : List String → List String
  | [] => []
  | k :: rest => k :: (firstKeys rest).filter (fun x => x != k)

/-- The group of rows sharing one recurring-payment key. -/
def groupOf (df : List Txn) (k : String) : List Txn :=
  df.filter (fun t => rKey t == k)

/-- One recurring-payment report entry. -/
structure RecurringPayment where
  description : String
  count : ℕ
  average_amount : ℚ
  category : String
deriving DecidableEq

/-- The arithmetic mean of the signed amounts of a group. -/
def groupAvg (items : List Txn) : ℚ :=
  ((items.map Txn.amount).sum) / (items.length : ℚ)

/-- The entry identify_recurring_payments builds for one key: only groups
of at least two rows qualify; the average is rounded to cents; the
category comes from the first row of the group. -/
def mkRecurring (df : List Txn) (k : String) : Option RecurringPayment :=
  if 2 ≤ (groupOf df k).length then
    some { description := k, count := (groupOf df k).length,
           average_amount := round2 (groupAvg (groupOf df k)),
           category := (groupOf df k).headI.category }
  else none

/-- Descending comparison on the absolute average amount, the sort order
of identify_recurring_payments. -/
def rpGE (a b : RecurringPayment) : Prop :=
  |b.average_amount| ≤ |a.average_amount|

instance : DecidableRel rpGE := fun _ _ => inferInstanceAs (Decidable (_ ≤ _))

instance : IsTotal RecurringPayment rpGE := ⟨fun _ _ => le_total _ _⟩

instance : IsTrans RecurringPayment rpGE :=
  ⟨fun _ _ _ h1 h2 => le_trans h2 h1⟩

/-- identify_recurring_payments: group by normalized description, keep
groups of size at least 2, sort descending by absolute average amount. -/
def identify_recurring_payments (df : List Txn) : List RecurringPayment :=
  List.insertionSort rpGE ((firstKeys (df.map rKey)).filterMap (mkRecurring df))

/-- The grouping key of analyze_spending: the lowercased category. -/
def catKey (t : Txn) : String := strLower t.category

/-- The summed signed amount of the expense rows of one lowercased
category (the groupby sum of analyze_spending). -/
def catTotal (df : List Txn) (c : String) : ℚ :=
  (((expenseRows df).filter (fun t => catKey t == c)).map Txn.amount).sum

/-- The protected category list of analyze_spending. -/
def protected_cats : List String := ["rent", "housing", "mortgage"]

/-- One spending-cut suggestion. -/
structure Suggestion where
  category : String
  amount : ℚ
  potential_cut : ℚ
  necessity : ℚ
deriving DecidableEq

/-- The suggestion analyze_spending builds for one category, or none when
an exclusion rule fires: protected categories of necessity at least 0.9
are skipped, and so is any potential cut of at most 1. -/
def mkSuggestion (df : List Txn) (c : String) : Option Suggestion :=
  if c ∈ protected_cats ∧ 0.9 ≤ get_necessity_score c then none
  else if |catTotal df c| * (1 - get_necessity_score c) ≤ 1 then none
  else some { category := c, amount := round2 |catTotal df c|,
              potential_cut := round2 (|catTotal df c| * (1 - get_necessity_score c)),
              necessity := get_necessity_score c }

/-- Descending comparison on the potential cut, the sort order of
analyze_spending. -/
def sugGE (a b : Suggestion) : Prop := b.potential_cut ≤ a.potential_cut

instance : DecidableRel sugGE := fun _ _ => inferInstanceAs (Decidable (_ ≤ _))

instance : IsTotal Suggestion sugGE := ⟨fun _ _ => le_total _ _⟩

instance : IsTrans Suggestion sugGE := ⟨fun _ _ _ h1 h2 => le_trans h2 h1⟩

/-- analyze_spending: per-category suggestions over the expense rows,
sorted descending by potential cut. -/
def analyze_spending (df : List Txn) : List Suggestion :=
  List.insertionSort sugGE
    ((firstKeys ((expenseRows df).map catKey)).filterMap (mkSuggestion df))

/-- _generate_reason: the advice text by necessity band (category and
amount are accepted and ignored, as in the source). -/
def generate_reason (_category : String) (_amount necessity : ℚ) : String :=
  if 0.9 ≤ necessity then "High-necessity expense (essential) — not recommended to cut."
  else if 0.7 ≤ necessity then "Important but could be reviewed for small savings."
  else if 0.4 ≤ necessity then "Moderately necessary — consider trimming recurring or frequency."
  else "Low-necessity discretionary spend — good candidate to cut."

/-- One final recommendation row. -/
structure Recommendation where
  category : String
  amount : ℚ
  reason : String
deriving DecidableEq

/-- The recommendation get_recommendations builds from one suggestion. -/
def mkRecommendation (c : Suggestion) : Recommendation :=
  { category := c.category, amount := c.amount,
    reason := generate_reason c.category c.amount c.necessity }

/-- The selection loop of get_recommendations: skip categories already
seen, stop once the list holds top_n entries (the break fires after the
append, so count tracks the current length). -/
def recsAux : List Suggestion → List String → ℕ → ℕ → List Recommendation
  | [], _, _, _ => []
  | c :: rest, seen, count, top_n =>
    if c.category ∈ seen then recsAux rest seen count top_n
    else if top_n ≤ count + 1 then [mkRecommendation c]
    else mkRecommendation c :: recsAux rest (c.category :: seen) (count + 1) top_n

/-- get_recommendations: the first top_n distinct-category suggestions of
analyze_spending, turned into recommendations. -/
def get_recommendations (df : List Txn) (top_n : ℕ) : List Recommendation :=
  recsAux (analyze_spending df) [] 0 top_n

/-- Descending comparison on the waste potential, the sort order of
_get_top_questionable_transactions. -/
def rGE (a b : Rating) : Prop := b.waste_potential ≤ a.waste_potential

instance : DecidableRel rGE := fun _ _ => inferInstanceAs (Decidable (_ ≤ _))

instance : IsTotal Rating rGE := ⟨fun _ _ => le_total _ _⟩

instance : IsTrans Rating rGE := ⟨fun _ _ _ h1 h2 => le_trans h2 h1⟩

/-- _get_top_questionable_transactions over a ratings list: keep the
ratings of necessity below 0.70, sort descending by waste potential, take
the first top_n. -/
def get_top_questionable_transactions (ratings : List Rating) (top_n : ℕ) : List Rating :=
  (List.insertionSort rGE (ratings.filter (fun t => decide (t.necessity < 0.70)))).take top_n

/-- One projection scenario: the percent rate with the per-horizon future
values. -/
structure Scenario where
  rate : ℕ
  projections : List (ℕ × ℚ)
deriving DecidableEq

/-- The future value of an ordinary annuity, as written in
investment_projection. -/
def fvAnnuity (monthly_savings monthly_rate : ℚ) (months : ℕ) : ℚ :=
  monthly_savings * (((1 + monthly_rate) ^ months - 1) / monthly_rate)

/-- The investment_projection result. -/
structure Projection where
  monthly_savings : ℚ
  scenarios : List Scenario
deriving DecidableEq

/-- investment_projection: monthly savings is the recommended total over
12; three rates, three horizons, each future value rounded to cents. -/
def investment_projection (recommendations : List Recommendation) : Projection :=
  let monthly_savings := (recommendations.map Recommendation.amount).sum / 12
  let scenarios := ([5, 7, 10] : List ℕ).map (fun (rate_pct : ℕ) =>
    let rate : ℚ := (rate_pct : ℚ) / 100
    let monthly_rate := rate / 12
    { rate := rate_pct,
      projections := ([1, 2, 5] : List ℕ).map (fun (years : ℕ) =>
        (years, round2 (fvAnnuity monthly_savings monthly_rate (years * 12)))) : Scenario })
  { monthly_savings := round2 monthly_savings, scenarios := scenarios }

/-! Concrete rows used to instantiate the theorems on closed inputs. -/

/-- A plain expense row. -/
def exTxn1 : Txn := ⟨some 5, -50, "Groceries", "Store A"⟩

/-- A second occurrence of the same expense, a month later. -/
def exTxn2 : Txn := ⟨some 36, -50, "Groceries", "Store A"⟩

/-- An income row. -/
def exTxn3 : Txn := ⟨some 10, 2000, "Salary", "Employer"⟩

/-- A future-dated row (processing date 100 in the examples). -/
def exTxn4 : Txn := ⟨some 200, -10, "Misc", "X"⟩

/-- A row whose date failed to parse. -/
def exTxn5 : Txn := ⟨none, -7, "Misc", "Y"⟩

/-- A low-necessity expense row. -/
def exTxn6 : Txn := ⟨some 5, -20, "Entertainment", "Cinema"⟩

/-- The scenario table of the spec: two recurring expenses and a salary. -/
def exDf : List Txn := [exTxn1, exTxn2, exTxn3]

/-- A table with a future-dated row and a null-dated row. -/
def exDf2 : List Txn := [exTxn1, exTxn4, exTxn5]

/-- A table with a questionable (low-necessity) expense. -/
def exDf3 : List Txn := [exTxn1, exTxn6]

/-- The suggestion analyze_spending produces on exDf (its numeric fields
evaluate to 100, 5 and 0.95). -/
def exSug : Suggestion :=
  { category := "groceries", amount := round2 |catTotal exDf "groceries"|,
    potential_cut :=
      round2 (|catTotal exDf "groceries"| * (1 - get_necessity_score "groceries")),
    necessity := get_necessity_score "groceries" }

/-- The recommendation get_recommendations produces on exDf. -/
def exRec : Recommendation := mkRecommendation exSug

/-- The recurring-payment entry identify_recurring_payments produces on
exDf. -/
def exRP : RecurringPayment := ⟨"store a", 2, -50, "Groceries"⟩

/-!
Helper lemmas about the validation steps: the outlier and duplicate steps
only touch warnings, the sign-correction step maps signFixOne over the
frame, and signFixOne only touches the amount field.
-/

/-- The outlier step never changes the frame. -/
theorem outlierStep_df (s : AState) : (outlierStep s).df = s.df := by
  unfold outlierStep
  repeat' split
  all_goals rfl

/-- The duplicate step never changes the frame. -/
theorem dupStep_df (s : AState) : (dupStep s).df = s.df := by
  unfold dupStep
  split
  all_goals rfl

/-- The outlier step never changes the cached ratings. -/
theorem outlierStep_ratings (s : AState) :
    (outlierStep s).transactions_with_ratings = s.transactions_with_ratings := by
  unfold outlierStep
  repeat' split
  all_goals rfl

/-- The duplicate step never changes the cached ratings. -/
theorem dupStep_ratings (s : AState) :
    (dupStep s).transactions_with_ratings = s.transactions_with_ratings := by
  unfold dupStep
  split
  all_goals rfl

/-- The outlier step only ever appends to the warning list. -/
theorem outlierStep_warnings (s : AState) :
    ∃ w : List String, (outlierStep s).warnings = s.warnings ++ w := by
  unfold outlierStep
  repeat' split
  · exact ⟨_, rfl⟩
  · exact ⟨[], (List.append_nil _).symm⟩
  · exact ⟨[], (List.append_nil _).symm⟩

/-- The duplicate step only ever appends to the warning list. -/
theorem dupStep_warnings (s : AState) :
    ∃ w : List String, (dupStep s).warnings = s.warnings ++ w := by
  unfold dupStep
  split
  · exact ⟨_, rfl⟩
  · exact ⟨[], (List.append_nil _).symm⟩

/-- The sign-correction step maps signFixOne over the frame. -/
theorem signFixStep_df (s : AState) : (signFixStep s).df = s.df.map signFixOne := rfl

/-- The sign correction never changes a date. -/
theorem signFixOne_date (t : Txn) : (signFixOne t).date = t.date := by
  unfold signFixOne
  repeat' split
  all_goals rfl

/-- The sign correction never changes a category. -/
theorem signFixOne_category (t : Txn) : (signFixOne t).category = t.category := by
  unfold signFixOne
  repeat' split
  all_goals rfl

/-- The sign correction never changes a description. -/
theorem signFixOne_description (t : Txn) : (signFixOne t).description = t.description := by
  unfold signFixOne
  repeat' split
  all_goals rfl

/-- The income classification is untouched by the sign correction. -/
theorem isIncome_signFixOne (t : Txn) : isIncome (signFixOne t) = isIncome t := by
  unfold isIncome
  rw [signFixOne_category]

/-- The frame the full validation pipeline produces: the future-date
filter followed by the row-wise sign correction. -/
theorem clean_df (today : Int) (s : AState) :
    (clean_and_validate_data today s).df =
      (s.df.filter (fun t => ! isFuture today t)).map signFixOne := by
  unfold clean_and_validate_data
  rw [dupStep_df, outlierStep_df]
  rfl

/-- Warnings survive the sign-correction step. -/
theorem mem_warnings_signFixStep {s : AState} {w : String} (h : w ∈ s.warnings) :
    w ∈ (signFixStep s).warnings :=
  List.mem_append_left _ h

/-- Warnings survive the outlier step. -/
theorem mem_warnings_outlierStep {s : AState} {w : String} (h : w ∈ s.warnings) :
    w ∈ (outlierStep s).warnings := by
  obtain ⟨x, hx⟩ := outlierStep_warnings s
  rw [hx]
  exact List.mem_append_left _ h

/-- Warnings survive the duplicate step. -/
theorem mem_warnings_dupStep {s : AState} {w : String} (h : w ∈ s.warnings) :
    w ∈ (dupStep s).warnings := by
  obtain ⟨x, hx⟩ := dupStep_warnings s
  rw [hx]
  exact List.mem_append_left _ h

/-- The row-wise sign correction establishes the sign invariant. -/
theorem signFixOne_spec (u : Txn) :
    (isIncome u = true → 0 ≤ (signFixOne u).amount) ∧
    (isIncome u = false → strContains (strLower u.description) "refund" = false →
      (signFixOne u).amount ≤ 0) := by
  unfold signFixOne
  split_ifs with h1 h2
  · refine ⟨fun _ => abs_nonneg _, fun hf _ => ?_⟩
    rw [h1.1] at hf
    cases hf
  · refine ⟨fun ht => ?_, fun _ _ => neg_nonpos.mpr (abs_nonneg _)⟩
    rw [h2.1] at ht
    cases ht
  · push_neg at h1 h2
    refine ⟨fun ht => h1 ht, fun hf hr => ?_⟩
    by_contra hpos
    push_neg at hpos
    exact h2 hf hpos hr

/-- Rounding to cents moves a rational by at most half a cent. -/
theorem round2_err (x : ℚ) : |round2 x - x| ≤ 1/200 := by
  unfold round2
  have h : |x * 100 - ((round (x * 100) : ℤ) : ℚ)| ≤ 1/2 := abs_sub_round (x * 100)
  have e : ((round (x * 100) : ℤ) : ℚ) / 100 - x =
      -((x * 100 - ((round (x * 100) : ℤ) : ℚ)) / 100) := by ring
  rw [e, abs_neg, abs_div, abs_of_nonneg (by norm_num : (0:ℚ) ≤ 100)]
  linarith

/-- Rounding to cents fixes zero. -/
theorem round2_zero : round2 0 = 0 := by
  unfold round2
  norm_num

/-- A zero contribution projects to a zero future value. -/
theorem fvAnnuity_zero (monthly_rate : ℚ) (months : ℕ) :
    fvAnnuity 0 monthly_rate months = 0 := by
  unfold fvAnnuity
  ring

/-- Every suggestion analyze_spending emits survives both exclusion
rules and is never the protected rent category. -/
theorem analyze_spending_spec (df : List Txn) (s : Suggestion)
    (hs : s ∈ analyze_spending df) :
    (s.category ∈ protected_cats → get_necessity_score s.category < 0.9) ∧
    1 < |catTotal df s.category| * (1 - get_necessity_score s.category) ∧
    s.category ≠ "rent" := by
  unfold analyze_spending at hs
  rw [List.mem_insertionSort, List.mem_filterMap] at hs
  obtain ⟨k, _, hk⟩ := hs
  unfold mkSuggestion at hk
  split_ifs at hk with h1 h2
  injection hk with hk
  subst hk
  refine ⟨fun hmem => ?_, by push_neg at h2; exact h2, fun hrent => ?_⟩
  · by_contra hge
    push_neg at hge
    exact h1 ⟨hmem, hge⟩
  · have hk : k = "rent" := hrent
    apply h1
    rw [hk]
    have hns : get_necessity_score "rent" = 0.95 := rfl
    exact ⟨by decide, by rw [hns]; norm_num⟩

/-- Every recommendation the selection loop emits comes from one of the
suggestions it was fed. -/
theorem recsAux_mem {cuts : List Suggestion} {seen : List String}
    {count top_n : ℕ} {r : Recommendation} (h : r ∈ recsAux cuts seen count top_n) :
    ∃ c ∈ cuts, r = mkRecommendation c := by
  induction cuts generalizing seen count with
  | nil => cases h
  | cons c rest ih =>
    rw [recsAux] at h
    split_ifs at h with h1 h2
    · obtain ⟨c', hc', rfl⟩ := ih h
      exact ⟨c', List.mem_cons_of_mem _ hc', rfl⟩
    · rw [List.mem_singleton] at h
      exact ⟨c, List.mem_cons_self _ _, h⟩
    · rcases List.mem_cons.mp h with rfl | h'
      · exact ⟨c, List.mem_cons_self _ _, rfl⟩
      · obtain ⟨c', hc', rfl⟩ := ih h'
        exact ⟨c', List.mem_cons_of_mem _ hc', rfl⟩

/-- Claim C3: for every transaction rated by rate_transaction_worth, the
reported worth_it_rating plus the reported waste_potential equals the
absolute value of the amount within rounding tolerance (each component is
rounded to 2 decimal places, so the sum is within one cent). -/
theorem C3_rating_sum (df : List Txn) (r : Rating)
    (hr : r ∈ rate_transaction_worth df) :
    abs (r.worth_it_rating + r.waste_potential - |r.amount|) ≤ 1/100 := by
  obtain ⟨t, _, rfl⟩ := List.mem_map.mp hr
  show abs (round2 (|t.amount| * get_necessity_score t.category) +
      round2 (|t.amount| * (1 - get_necessity_score t.category)) - |t.amount|) ≤ 1/100
  set a := |t.amount| with ha
  set n := get_necessity_score t.category with hn
  have h1 := round2_err (a * n)
  have h2 := round2_err (a * (1 - n))
  have e : round2 (a * n) + round2 (a * (1 - n)) - a =
      (round2 (a * n) - a * n) + (round2 (a * (1 - n)) - a * (1 - n)) := by ring
  rw [e]
  calc |(round2 (a * n) - a * n) + (round2 (a * (1 - n)) - a * (1 - n))|
      ≤ |round2 (a * n) - a * n| + |round2 (a * (1 - n)) - a * (1 - n)| := abs_add _ _
    _ ≤ 1/200 + 1/200 := add_le_add h1 h2
    _ = 1/100 := by norm_num

/-- Claim C3 witness: the rating of the concrete groceries row satisfies
the sum bound. -/
theorem C3_rating_sum_witness :
    abs ((rateOne exTxn1).worth_it_rating + (rateOne exTxn1).waste_potential -
      |(rateOne exTxn1).amount|) ≤ 1/100 :=
  C3_rating_sum [exTxn1] (rateOne exTxn1)
    (List.mem_map.mpr ⟨exTxn1, List.mem_singleton.mpr rfl, rfl⟩)

/-- Claim C6: get_necessity_score is a pure function of the category
text: any two spellings with the same lowercasing score identically, and
a category absent from the necessity table scores exactly 0.50. -/
theorem C6_necessity_pure :
    (∀ c₁ c₂ : String, strLower c₁ = strLower c₂ →
      get_necessity_score c₁ = get_necessity_score c₂) ∧
    (∀ c : String, necessity_scores.lookup (strLower c) = none →
      get_necessity_score c = 0.50) := by
  constructor
  · intro c₁ c₂ h
    unfold get_necessity_score
    rw [h]
  · intro c h
    unfold get_necessity_score
    rw [h]
    rfl

/-- Claim C6 witness: an uppercase spelling of salary scores like the
lowercase one, and an unknown category scores 0.50. -/
theorem C6_necessity_pure_witness :
    get_necessity_score "SALARY" = get_necessity_score "salary" ∧
    get_necessity_score "coffee" = 0.50 :=
  ⟨C6_necessity_pure.1 "SALARY" "salary" (by decide),
   C6_necessity_pure.2 "coffee" (by decide)⟩

/-- Claim C8: calling rate_transaction_worth a second time on the state
left by the first call (the frame unmodified, the ratings cache
overwritten) returns the same result list as the first call. -/
theorem C8_rate_idempotent (s : AState) :
    (rate_transaction_worth_st ((rate_transaction_worth_st s).1)).2 =
      (rate_transaction_worth_st s).2 := rfl

/-- Claim C9: the outlier and duplicate steps remove no row and alter no
field of any row (the frame and the ratings cache after both steps equal
those before); their only effect is appending warning strings. -/
theorem C9_flag_only (s : AState) :
    (dupStep (outlierStep s)).df = s.df ∧
    (dupStep (outlierStep s)).transactions_with_ratings =
      s.transactions_with_ratings ∧
    ∃ w : List String, (dupStep (outlierStep s)).warnings = s.warnings ++ w := by
  refine ⟨by rw [dupStep_df, outlierStep_df], by rw [dupStep_ratings, outlierStep_ratings], ?_⟩
  obtain ⟨w1, h1⟩ := outlierStep_warnings s
  obtain ⟨w2, h2⟩ := dupStep_warnings (outlierStep s)
  exact ⟨w1 ++ w2, by rw [h2, h1, List.append_assoc]⟩

/-- Claim C1: after validation completes, every income-classified row has
a nonnegative amount, and every non-income row whose description lacks
refund has a nonpositive amount. -/
theorem C1_sign_invariant (today : Int) (df : List Txn) (t : Txn)
    (ht : t ∈ (clean_and_validate_data today (initState df)).df) :
    (isIncome t = true → 0 ≤ t.amount) ∧
    (isIncome t = false → strContains (strLower t.description) "refund" = false →
      t.amount ≤ 0) := by
  rw [clean_df] at ht
  obtain ⟨u, _, rfl⟩ := List.mem_map.mp ht
  have hs := signFixOne_spec u
  refine ⟨fun h => hs.1 ?_, fun h hr => hs.2 ?_ ?_⟩
  · rwa [isIncome_signFixOne] at h
  · rwa [isIncome_signFixOne] at h
  · rwa [signFixOne_description] at hr

/-- Claim C1 witness: the validated scenario table contains the salary
row, and the invariant holds of it. -/
theorem C1_sign_invariant_witness :
    (isIncome exTxn3 = true → 0 ≤ exTxn3.amount) ∧
    (isIncome exTxn3 = false → strContains (strLower exTxn3.description) "refund" = false →
      exTxn3.amount ≤ 0) :=
  C1_sign_invariant 100 exDf exTxn3 (by rw [clean_df]; decide)

/-- Claim C2: after validation no surviving row is dated after the
processing date; when at least one future-dated row was removed the
removed count is recorded as a warning; and null-dated rows are retained
(each survives the filter and appears, sign-corrected, in the validated
table). -/
theorem C2_future_date_filter (today : Int) (df : List Txn) :
    (∀ t ∈ (clean_and_validate_data today (initState df)).df,
      ∀ d : Int, t.date = some d → d ≤ today) ∧
    (0 < futureCount today df →
      ("⚠️  Removed " ++ toString (futureCount today df) ++
        " future-dated transactions") ∈
        (clean_and_validate_data today (initState df)).warnings) ∧
    (∀ t ∈ df, t.date = none →
      signFixOne t ∈ (clean_and_validate_data today (initState df)).df) := by
  refine ⟨?_, ?_, ?_⟩
  · intro t ht d hd
    rw [clean_df] at ht
    obtain ⟨u, hu, rfl⟩ := List.mem_map.mp ht
    rw [signFixOne_date] at hd
    have hf := (List.mem_filter.mp hu).2
    rw [Bool.not_eq_true'] at hf
    unfold isFuture at hf
    rw [hd] at hf
    simp only [decide_eq_false_iff_not] at hf
    exact not_lt.mp hf
  · intro hc
    unfold clean_and_validate_data
    apply mem_warnings_dupStep
    apply mem_warnings_outlierStep
    apply mem_warnings_signFixStep
    show _ ∈ (futureFilterStep today (initState df)).warnings
    simp only [futureFilterStep, initState]
    rw [if_pos hc]
    simp
  · intro t ht hd
    rw [clean_df]
    apply List.mem_map_of_mem
    rw [List.mem_filter]
    refine ⟨ht, ?_⟩
    unfold isFuture
    rw [hd]
    rfl

/-- Claim C2 witness: on the concrete table with one future-dated and one
null-dated row, the surviving dated row is on time, the removal warning
is recorded, and the null-dated row is retained. -/
theorem C2_future_date_filter_witness :
    ((5 : Int) ≤ 100) ∧
    (("⚠️  Removed " ++ toString (futureCount 100 exDf2) ++
      " future-dated transactions") ∈
      (clean_and_validate_data 100 (initState exDf2)).warnings) ∧
    signFixOne exTxn5 ∈ (clean_and_validate_data 100 (initState exDf2)).df :=
  ⟨(C2_future_date_filter 100 exDf2).1 exTxn1 (by rw [clean_df]; decide) 5 rfl,
   (C2_future_date_filter 100 exDf2).2.1 (by decide),
   (C2_future_date_filter 100 exDf2).2.2 exTxn5 (by decide) rfl⟩

/-- Claim C7: with recommended amounts summing to zero (in particular
with an empty recommendation list), investment_projection reports zero
monthly savings and a zero future value for every rate and horizon. -/
theorem C7_zero_projection (recs : List Recommendation)
    (h : (recs.map Recommendation.amount).sum = 0) :
    (investment_projection recs).monthly_savings = 0 ∧
    ∀ s ∈ (investment_projection recs).scenarios,
      ∀ p ∈ s.projections, p.2 = 0 := by
  have hms : ((recs.map Recommendation.amount).sum : ℚ) / 12 = 0 := by
    rw [h]
    norm_num
  constructor
  · show round2 ((recs.map Recommendation.amount).sum / 12) = 0
    rw [hms, round2_zero]
  · intro s hs p hp
    simp only [investment_projection, List.map_cons, List.map_nil, List.mem_cons,
      List.not_mem_nil, or_false] at hs
    rcases hs with rfl | rfl | rfl <;>
      · simp only [List.map_cons, List.map_nil, List.mem_cons, List.not_mem_nil,
          or_false] at hp
        rcases hp with rfl | rfl | rfl <;>
          simp [hms, fvAnnuity_zero, round2_zero]

/-- Claim C7 witness: the empty recommendation list projects to zero
everywhere. -/
theorem C7_zero_projection_witness :
    (investment_projection []).monthly_savings = 0 ∧
    ∀ s ∈ (investment_projection []).scenarios, ∀ p ∈ s.projections, p.2 = 0 :=
  C7_zero_projection [] rfl

/-- Rounding to cents fixes every whole number of cents. -/
theorem round2_div_100 (n : ℤ) : round2 ((n : ℚ) / 100) = (n : ℚ) / 100 := by
  unfold round2
  rw [div_mul_cancel₀ _ (by norm_num : (100 : ℚ) ≠ 0), round_intCast]

/-- The groceries category total of the scenario table. -/
theorem catTotal_exDf : catTotal exDf "groceries" = -100 := by
  have hfil : (expenseRows exDf).filter (fun t => catKey t == "groceries")
      = [exTxn1, exTxn2] := by decide
  unfold catTotal
  rw [hfil]
  norm_num [exTxn1, exTxn2]

/-- The suggestion built for the groceries group of the scenario table. -/
theorem mkSuggestion_exDf : mkSuggestion exDf "groceries" = some exSug := by
  have hns : get_necessity_score "groceries" = 0.95 := rfl
  have hA : ¬("groceries" ∈ protected_cats ∧ 0.9 ≤ get_necessity_score "groceries") := by
    rintro ⟨hmem, -⟩
    exact absurd hmem (by decide)
  have hB : ¬(|catTotal exDf "groceries"| * (1 - get_necessity_score "groceries") ≤ 1) := by
    rw [catTotal_exDf, hns]
    norm_num
  unfold mkSuggestion
  rw [if_neg hA, if_neg hB]
  rfl

/-- analyze_spending on the scenario table returns exactly the groceries
suggestion. -/
theorem analyze_spending_exDf : analyze_spending exDf = [exSug] := by
  have hkeys : firstKeys ((expenseRows exDf).map catKey) = ["groceries"] := by decide
  unfold analyze_spending
  rw [hkeys]
  simp [List.filterMap_cons, mkSuggestion_exDf, List.insertionSort, List.orderedInsert]

/-- get_recommendations on the scenario table returns exactly the
groceries recommendation. -/
theorem get_recommendations_exDf : get_recommendations exDf 5 = [exRec] := by
  unfold get_recommendations
  rw [analyze_spending_exDf]
  simp [recsAux, exRec]

/-- Claim C4: the spending-cut suggestion list never contains a protected
category (rent, housing, mortgage) whose necessity is at least 0.90,
never contains a category whose potential cut is at most 1, and in
particular the rent category never appears (an input category Rent groups
under the lowercased key rent, whose table necessity is 0.95); the same
holds of the recommendations selected from the suggestions. -/
theorem C4_protected_never_cut (df : List Txn) :
    (∀ s ∈ analyze_spending df,
      (s.category ∈ protected_cats → get_necessity_score s.category < 0.9) ∧
      1 < |catTotal df s.category| * (1 - get_necessity_score s.category) ∧
      s.category ≠ "rent") ∧
    (∀ top_n : ℕ, ∀ r ∈ get_recommendations df top_n,
      (r.category ∈ protected_cats → get_necessity_score r.category < 0.9) ∧
      1 < |catTotal df r.category| * (1 - get_necessity_score r.category) ∧
      r.category ≠ "rent") := by
  refine ⟨fun s hs => analyze_spending_spec df s hs, ?_⟩
  intro top_n r hr
  obtain ⟨c, hc, rfl⟩ := recsAux_mem hr
  exact analyze_spending_spec df c hc

/-- Claim C4 witness: the groceries suggestion and recommendation of the
scenario table satisfy the exclusion properties. -/
theorem C4_protected_never_cut_witness :
    ((exSug.category ∈ protected_cats → get_necessity_score exSug.category < 0.9) ∧
      1 < |catTotal exDf exSug.category| * (1 - get_necessity_score exSug.category) ∧
      exSug.category ≠ "rent") ∧
    ((exRec.category ∈ protected_cats → get_necessity_score exRec.category < 0.9) ∧
      1 < |catTotal exDf exRec.category| * (1 - get_necessity_score exRec.category) ∧
      exRec.category ≠ "rent") :=
  ⟨(C4_protected_never_cut exDf).1 exSug
      (by unfold analyze_spending
          rw [List.mem_insertionSort, List.mem_filterMap]
          exact ⟨"groceries", by decide, mkSuggestion_exDf⟩),
   (C4_protected_never_cut exDf).2 5 exRec
      (by rw [get_recommendations_exDf]; exact List.mem_singleton.mpr rfl)⟩

/-- Claim C5: every recurring group has at least 2 occurrences, its
average amount is the arithmetic mean of the group's signed amounts
rounded to cents, and the returned list is sorted descending by the
absolute value of the average amount. -/
theorem C5_recurring_groups (df : List Txn) :
    (∀ e ∈ identify_recurring_payments df,
      2 ≤ e.count ∧ e.count = (groupOf df e.description).length ∧
      e.average_amount = round2 (groupAvg (groupOf df e.description))) ∧
    List.Sorted rpGE (identify_recurring_payments df) := by
  constructor
  · intro e he
    unfold identify_recurring_payments at he
    rw [List.mem_insertionSort, List.mem_filterMap] at he
    obtain ⟨k, _, hk⟩ := he
    unfold mkRecurring at hk
    split_ifs at hk with h2
    injection hk with hk
    subst hk
    exact ⟨h2, rfl, rfl⟩
  · exact List.sorted_insertionSort rpGE _

/-- The scenario group of the two Store A rows. -/
theorem groupOf_exDf : groupOf exDf "store a" = [exTxn1, exTxn2] := by decide

/-- The recurring entry built for the Store A group. -/
theorem mkRecurring_exDf : mkRecurring exDf "store a" = some exRP := by
  unfold mkRecurring
  rw [if_pos (by rw [groupOf_exDf]; decide)]
  have havg : round2 (groupAvg (groupOf exDf "store a")) = -50 := by
    rw [groupOf_exDf]
    have h1 : groupAvg [exTxn1, exTxn2] = ((-5000 : ℤ) : ℚ) / 100 := by
      unfold groupAvg
      norm_num [exTxn1, exTxn2]
    rw [h1, round2_div_100]
    norm_num
  rw [groupOf_exDf] at havg ⊢
  rw [havg]
  rfl

/-- Claim C5 witness: the Store A group of the scenario table has two
occurrences and average amount -50. -/
theorem C5_recurring_groups_witness :
    2 ≤ exRP.count ∧ exRP.count = (groupOf exDf exRP.description).length ∧
    exRP.average_amount = round2 (groupAvg (groupOf exDf exRP.description)) :=
  (C5_recurring_groups exDf).1 exRP
    (by unfold identify_recurring_payments
        rw [List.mem_insertionSort, List.mem_filterMap]
        exact ⟨"store a", by decide, mkRecurring_exDf⟩)

/-- Claim C10: the top-questionable list holds at most 8 entries, each
with reported necessity strictly below 0.70, sorted descending by waste
potential. -/
theorem C10_top_questionable (df : List Txn) :
    (get_top_questionable_transactions (rate_transaction_worth df) 8).length ≤ 8 ∧
    (∀ t ∈ get_top_questionable_transactions (rate_transaction_worth df) 8,
      t.necessity < 0.70) ∧
    List.Sorted rGE (get_top_questionable_transactions (rate_transaction_worth df) 8) := by
  refine ⟨?_, ?_, ?_⟩
  · unfold get_top_questionable_transactions
    exact List.length_take_le 8 _
  · intro t ht
    unfold get_top_questionable_transactions at ht
    have h1 := List.mem_of_mem_take ht
    rw [List.mem_insertionSort] at h1
    have h2 := List.of_mem_filter h1
    simpa using h2
  · unfold get_top_questionable_transactions
    exact List.Pairwise.sublist (List.take_sublist _ _) (List.sorted_insertionSort rGE _)

/-- The reported necessity of the entertainment rating is 0.30. -/
theorem rateOne_exTxn6_necessity : (rateOne exTxn6).necessity = 0.30 := by
  show round2 (get_necessity_score "Entertainment") = 0.30
  have hns : get_necessity_score "Entertainment" = (30 : ℤ) / 100 := by
    have : get_necessity_score "Entertainment" = 0.30 := rfl
    rw [this]
    norm_num
  rw [hns, round2_div_100]
  norm_num

/-- The reported necessity of the groceries rating is 0.95. -/
theorem rateOne_exTxn1_necessity : (rateOne exTxn1).necessity = 0.95 := by
  show round2 (get_necessity_score "Groceries") = 0.95
  have hns : get_necessity_score "Groceries" = (95 : ℤ) / 100 := by
    have : get_necessity_score "Groceries" = 0.95 := rfl
    rw [this]
    norm_num
  rw [hns, round2_div_100]
  norm_num

/-- Claim C10 witness: on the table with one groceries and one
entertainment row, the entertainment rating is in the questionable list
and its necessity is below 0.70. -/
theorem C10_top_questionable_witness : (rateOne exTxn6).necessity < 0.70 := by
  have h1 : ¬((rateOne exTxn1).necessity < 0.70) := by
    rw [rateOne_exTxn1_necessity]
    norm_num
  have h6 : (rateOne exTxn6).necessity < 0.70 := by
    rw [rateOne_exTxn6_necessity]
    norm_num
  have hfil : (rate_transaction_worth exDf3).filter
      (fun t => decide (t.necessity < 0.70)) = [rateOne exTxn6] := by
    show ([rateOne exTxn1, rateOne exTxn6]).filter (fun t => decide (t.necessity < 0.70))
        = [rateOne exTxn6]
    simp [List.filter_cons, h1, h6]
  exact (C10_top_questionable exDf3).2.1 (rateOne exTxn6)
    (by unfold get_top_questionable_transactions
        rw [hfil]
        simp [List.insertionSort, List.orderedInsert])

end Spending

